import Mathlib

/-!
Verification of the reconciliation engine of the import-tickers batch job.

The Go sources are shallowly embedded: record types become Lean structures,
pointer-mutating functions become pure functions returning the updated record,
and the tail of the root command (safety valve plus persistence hand-off)
becomes a function into `Except`.  Unix timestamps (`time.Now().Unix()`) are
passed in as an explicit `now : Int` argument and the current calendar date as
an explicit `today : String` argument.  The update-reason strings model the
`fmt.Sprintf` messages with the single-quote characters around old and new
values omitted; no property below depends on the reason text.
-/

/-- The `AssetType` constants of package `common` (Go `type AssetType string`). -/
def CommonStock : String := "Common Stock"

def ETF : String := "Exchange Traded Fund"

def ETN : String := "Exchange Traded Note"

def CEF : String := "Closed-End Fund"

def MutualFund : String := "Mutual Fund"

def ADRC : String := "American Depository Receipt Common"

def FRED : String := "FRED"

def UnknownAsset : String := "Unknown"

/-- The `common.Asset` record.  `Icon []byte` becomes a list of bytes,
`PolygonDetailAge`/`LastUpdated int64` become `Int`. -/
@[ext] structure Asset where
  Ticker : String
  Name : String
  Description : String
  PrimaryExchange : String
  AssetType : String
  CompositeFigi : String
  ShareClassFigi : String
  CUSIP : String
  ISIN : String
  CIK : String
  ListingDate : String
  DelistingDate : String
  Industry : String
  Sector : String
  Icon : List Nat
  IconUrl : String
  CorporateUrl : String
  HeadquartersLocation : String
  SimilarTickers : List String
  PolygonDetailAge : Int
  FidelityCusip : Bool
  Updated : Bool
  UpdateReason : String
  LastUpdated : Int
  Source : String
deriving DecidableEq

/-- An asset whose every field is empty; used to build concrete test records. -/
def emptyAsset : Asset where
  Ticker := ""
  Name := ""
  Description := ""
  PrimaryExchange := ""
  AssetType := ""
  CompositeFigi := ""
  ShareClassFigi := ""
  CUSIP := ""
  ISIN := ""
  CIK := ""
  ListingDate := ""
  DelistingDate := ""
  Industry := ""
  Sector := ""
  Icon := []
  IconUrl := ""
  CorporateUrl := ""
  HeadquartersLocation := ""
  SimilarTickers := []
  PolygonDetailAge := 0
  FidelityCusip := false
  Updated := false
  UpdateReason := ""
  LastUpdated := 0
  Source := ""

/-- `common.MergeAsset(a, b)`: merge fields from `b` into `a`.  A ticker
mismatch is a logged no-op returning `a`.  Each guarded Go assignment becomes
a `let` step; every condition reads the current value of `a`, exactly as the
sequential Go statements do. -/
def MergeAsset (now : Int) (a0 b : Asset) : Asset :=
  if a0.Ticker ≠ b.Ticker then a0
  else
    let a1 := if a0.AssetType = "" ∧ b.AssetType ≠ "" then
      { a0 with AssetType := b.AssetType } else a0
    let a2 := if b.CIK ≠ "" ∧ a1.CIK ≠ b.CIK then
      { a1 with UpdateReason := "CIK changed " ++ a1.CIK ++ " to " ++ b.CIK,
                CIK := b.CIK, Updated := true, LastUpdated := now } else a1
    let a3 := if b.CUSIP ≠ "" ∧ a2.CUSIP ≠ b.CUSIP then
      { a2 with UpdateReason := "CUSIP changed " ++ a2.CUSIP ++ " to " ++ b.CUSIP,
                CUSIP := b.CUSIP, Updated := true, LastUpdated := now } else a2
    let a4 := if b.CompositeFigi ≠ "" ∧ a3.CompositeFigi ≠ b.CompositeFigi then
      { a3 with UpdateReason := "CompositeFigi changed " ++ a3.CompositeFigi ++ " to " ++ b.CompositeFigi,
                CompositeFigi := b.CompositeFigi, Updated := true, LastUpdated := now } else a3
    let a5 := if b.CorporateUrl ≠ "" ∧ a4.CorporateUrl ≠ b.CorporateUrl then
      { a4 with UpdateReason := "CorporateUrl changed " ++ a4.CorporateUrl ++ " to " ++ b.CorporateUrl,
                CorporateUrl := b.CorporateUrl, Updated := true, LastUpdated := now } else a4
    let a6 := if b.DelistingDate ≠ "" ∧ a5.DelistingDate ≠ b.DelistingDate then
      { a5 with UpdateReason := "DelistingDate changed " ++ a5.DelistingDate ++ " to " ++ b.DelistingDate,
                DelistingDate := b.DelistingDate, Updated := true, LastUpdated := now } else a5
    let a7 := if b.Description ≠ "" ∧ a6.Description ≠ b.Description then
      { a6 with UpdateReason := "Description changed " ++ a6.Description ++ " to " ++ b.Description,
                Description := b.Description, Updated := true, LastUpdated := now } else a6
    let a8 := if b.HeadquartersLocation ≠ "" ∧ a7.HeadquartersLocation ≠ b.HeadquartersLocation then
      { a7 with UpdateReason := "HeadquartersLocation changed " ++ a7.HeadquartersLocation ++ " to " ++ b.HeadquartersLocation,
                HeadquartersLocation := b.HeadquartersLocation, Updated := true, LastUpdated := now } else a7
    let a9 := if b.ISIN ≠ "" ∧ a8.ISIN ≠ b.ISIN then
      { a8 with UpdateReason := "ISIN changed " ++ a8.ISIN ++ " to " ++ b.ISIN,
                ISIN := b.ISIN, Updated := true, LastUpdated := now } else a8
    let a10 := if b.IconUrl ≠ "" ∧ a9.IconUrl ≠ b.IconUrl then
      { a9 with UpdateReason := "IconUrl changed " ++ a9.IconUrl ++ " to " ++ b.IconUrl,
                IconUrl := b.IconUrl, Updated := true, LastUpdated := now } else a9
    let a11 := if b.Industry ≠ "" ∧ a10.Industry ≠ b.Industry then
      { a10 with UpdateReason := "Industry changed " ++ a10.Industry ++ " to " ++ b.Industry,
                 Industry := b.Industry, Updated := true, LastUpdated := now } else a10
    let a12 := if b.ListingDate ≠ "" ∧ a11.ListingDate ≠ b.ListingDate then
      { a11 with UpdateReason := "ListingDate changed " ++ a11.ListingDate ++ " to " ++ b.ListingDate,
                 ListingDate := b.ListingDate, Updated := true, LastUpdated := now } else a11
    let a13 := if b.Name ≠ "" ∧ a12.Name ≠ b.Name then
      { a12 with UpdateReason := "Name changed " ++ a12.Name ++ " to " ++ b.Name,
                 Name := b.Name, Updated := true, LastUpdated := now } else a12
    let a14 := if b.PrimaryExchange ≠ "" ∧ a13.PrimaryExchange ≠ b.PrimaryExchange then
      { a13 with UpdateReason := "PrimaryExchange changed " ++ a13.PrimaryExchange ++ " to " ++ b.PrimaryExchange,
                 PrimaryExchange := b.PrimaryExchange, Updated := true, LastUpdated := now } else a13
    let a15 := if b.Sector ≠ "" ∧ a14.Sector ≠ b.Sector then
      { a14 with UpdateReason := "Sector changed " ++ a14.Sector ++ " to " ++ b.Sector,
                 Sector := b.Sector, Updated := true, LastUpdated := now } else a14
    let a16 := if b.ShareClassFigi ≠ "" ∧ a15.ShareClassFigi ≠ b.ShareClassFigi then
      { a15 with UpdateReason := "ShareClassFigi changed " ++ a15.ShareClassFigi ++ " to " ++ b.ShareClassFigi,
                 ShareClassFigi := b.ShareClassFigi, Updated := true, LastUpdated := now } else a15
    a16




/-- `common.BuildAssetMap`: ticker-keyed lookup.  A Go map insert loop keeps
the last record written for a key, hence the lookup scans the reversed list. -/
def BuildAssetMap (assets : List Asset) (t : String) : Option Asset :=
  assets.reverse.find? (fun a => a.Ticker == t)

/-- `common.SubtractAssets`: the assets of `a` whose ticker is not a key of
the ticker map built from `b`. -/
def SubtractAssets (a b : List Asset) : List Asset :=
  a.filter (fun x => (BuildAssetMap b x.Ticker).isNone)

/-- `common.MergeAssetList(first, second)`: merge records of `second` into
`first`.  The combined list receives, for each record of `second`, either the
merge into the record of `first` with the same ticker or the record itself,
followed by the records of `first` whose ticker does not occur in `second`. -/
def MergeAssetList (now : Int) (first second : List Asset) :
    List Asset × List Asset × List Asset :=
  let combinedAssets :=
    second.map (fun asset =>
      match BuildAssetMap first asset.Ticker with
      | some origAsset => MergeAsset now origAsset asset
      | none => asset)
    ++ first.filter (fun asset => (BuildAssetMap second asset.Ticker).isNone)
  let firstOnly := first.filter (fun asset => (BuildAssetMap second asset.Ticker).isNone)
  let secondOnly := second.filter (fun asset => (BuildAssetMap first asset.Ticker).isNone)
  (combinedAssets, firstOnly, secondOnly)

/-- Digit value of a decimal character. -/
def digitVal (c : Char) : Nat := c.toNat - 48

/-- Gregorian leap-year rule, as used by Go `time`. -/
def isLeapYear (y : Nat) : Bool := (y % 4 == 0 && y % 100 != 0) || (y % 400 == 0)

/-- Number of days of month `m` in year `y`. -/
def daysInMonth (y m : Nat) : Nat :=
  if m = 2 then (if isLeapYear y then 29 else 28)
  else if m = 4 ∨ m = 6 ∨ m = 9 ∨ m = 11 then 30 else 31

/-- Models Go `time.Parse("2006-01-02", s)`: a fixed-width year-month-day
date with validity checks; the result is the (year, month, day) triple. -/
def parseYMD (s : String) : Option (Nat × Nat × Nat) :=
  match s.toList with
  | [y1, y2, y3, y4, c1, m1, m2, c2, d1, d2] =>
    if y1.isDigit && y2.isDigit && y3.isDigit && y4.isDigit && c1 == '-'
        && m1.isDigit && m2.isDigit && c2 == '-' && d1.isDigit && d2.isDigit then
      let y := digitVal y1 * 1000 + digitVal y2 * 100 + digitVal y3 * 10 + digitVal y4
      let m := digitVal m1 * 10 + digitVal m2
      let d := digitVal d1 * 10 + digitVal d2
      if 1 ≤ m && m ≤ 12 && 1 ≤ d && d ≤ daysInMonth y m then some (y, m, d) else none
    else none
  | _ => none

/-- Models Go `Time.After` on parsed dates: strict lexicographic order on
(year, month, day). -/
def dateAfter (x y : Nat × Nat × Nat) : Bool :=
  x.1 > y.1 || (x.1 == y.1 && (x.2.1 > y.2.1 || (x.2.1 == y.2.1 && x.2.2 > y.2.2)))

/-- The comparison closure passed to `sort.SliceStable` inside
`DeduplicateCompositeFigi`: common stock first, then closed-end funds, then
the later parseable listing date; a parse failure or an empty date on either
side compares as not-less. -/
def dedupLess (a b : Asset) : Bool :=
  if a.AssetType = CommonStock ∧ b.AssetType ≠ CommonStock then true
  else if b.AssetType = CommonStock ∧ a.AssetType ≠ CommonStock then false
  else if a.AssetType = CEF ∧ b.AssetType ≠ CEF then true
  else if b.AssetType = CEF ∧ a.AssetType ≠ CEF then false
  else if a.ListingDate ≠ "" ∧ b.ListingDate ≠ "" then
    match parseYMD a.ListingDate with
    | none => false
    | some da =>
      match parseYMD b.ListingDate with
      | none => false
      | some db => dateAfter da db
  else false

/-- One bubbling step of insertion sort, operating on the reversed sorted
prefix: the new element `x` moves past every element it is strictly less
than, exactly like the inner swap loop of the Go insertion sort. -/
def revInsert (less : Asset → Asset → Bool) (x : Asset) : List Asset → List Asset
  | [] => [x]
  | y :: ys => if less x y then y :: revInsert less x ys else x :: y :: ys

/-- Models `sort.SliceStable(v, less)`: a stable insertion sort.  Go uses
insertion sort directly for slices of at most twenty elements and a stable
block-merge refinement of it above that; the two agree whenever the
comparator is consistent, and every use below is on small groups. -/
def sortSliceStable (less : Asset → Asset → Bool) (l : List Asset) : List Asset :=
  (l.foldl (fun acc x => revInsert less x acc) []).reverse

/-- The keys of the composite-figi map in first-occurrence order, tracking
already-seen keys.  Go map iteration order is unspecified; first-occurrence
order is one admissible order, and every property proved below depends on
membership only, never on output order. -/
def dedupKeysAux (seen : List String) : List String → List String
  | [] => []
  | k :: rest =>
    if k ∈ seen then dedupKeysAux seen rest else k :: dedupKeysAux (k :: seen) rest

/-- Distinct composite-figi keys in first-occurrence order. -/
def dedupKeys (l : List String) : List String := dedupKeysAux [] l

/-- The list stored in the composite-figi map under key `k`: all records with
that composite figi, in input order. -/
def groupOf (assets : List Asset) (k : String) : List Asset :=
  assets.filter (fun a => a.CompositeFigi == k)

/-- `common.DeduplicateCompositeFigi`: group records by composite figi
(including records whose composite figi is the empty string, which land in
the map under the key `""`), pass groups of size one through unchanged, and
keep the head of the stable sort under `dedupLess` for larger groups. -/
def DeduplicateCompositeFigi (assets : List Asset) : List Asset :=
  let keys := dedupKeys (assets.map (fun a => a.CompositeFigi))
  let singletonKeys := keys.filter (fun k => (groupOf assets k).length == 1)
  let dupKeys := keys.filter (fun k => (groupOf assets k).length != 1)
  singletonKeys.filterMap (fun k => (groupOf assets k).head?)
    ++ dupKeys.filterMap (fun k => (sortSliceStable dedupLess (groupOf assets k)).head?)

/-- The sequence of records `common.SaveToParquet` hands to `pw.Write`: the
loop body skips every record whose delisting date is non-empty. -/
def SaveToParquetRows (records : List Asset) : List Asset :=
  records.filter (fun r => r.DelistingDate == "")

/-- Modelled from the spec: the distinguished exit signals of the run.  The
numeric `common.EXIT_CODE_*` constants are declared in a repository file not
present among the sources examined; the abort paths of `rootCmd.Run` pass
them to `os.Exit`.  Distinct constructors model distinct non-zero codes. -/
inductive ExitCode where
  | polygonError
  | assetCountOutOfRange
  | databaseError
deriving DecidableEq

/-- The removal count exactly as the claim words it: the number of active
database assets whose ticker is absent from the merged collection, plus the
number of merged records carrying a non-empty delisting date. -/
def removalCount (dbAssets mergedAssets : List Asset) : Nat :=
  (dbAssets.filter (fun x => !(mergedAssets.any (fun y => y.Ticker == x.Ticker)))).length
    + (mergedAssets.filter (fun a => a.DelistingDate != "")).length

/-- The tail of `rootCmd.Run` for a configured database URL: compute the
assets being removed via `SubtractAssets`, add the count of merged records
already carrying a delisting date, and abort with the distinguished exit code
when the total exceeds `max_removed_count`; otherwise stamp the removed
assets as delisted, append them, and hand the collection to persistence.  The
`Except.ok` value is the collection handed to `SaveToDatabase` and
`SaveToParquet`; `Except.error` models `os.Exit` firing before any
persistence call. -/
def runPersistencePhase (databaseUrl : String) (maxRemovedCount : Nat)
    (dbAssets mergedAssets : List Asset) (today : String) (now : Int) :
    Except ExitCode (List Asset) :=
  if databaseUrl ≠ "" then
    let removedAssets := SubtractAssets dbAssets mergedAssets
    let numRemoved := removedAssets.length
      + (mergedAssets.filter (fun a => a.DelistingDate != "")).length
    if numRemoved > maxRemovedCount then
      Except.error ExitCode.assetCountOutOfRange
    else
      Except.ok (mergedAssets ++ removedAssets.map (fun asset =>
        { asset with DelistingDate := today, LastUpdated := now,
                     Updated := true, UpdateReason := "asset delisted" }))
  else Except.ok mergedAssets

/-- References for the two pointer arguments of the Go call
`MergeAsset(a, b)`. -/
inductive GoRef where
  | ra
  | rb
deriving DecidableEq

/-- A two-cell store holding the records the two pointers refer to. -/
def GoHeap : Type := GoRef → Asset

/-- Store `v` in the cell of `r`. -/
def hupd (h : GoHeap) (r : GoRef) (v : Asset) : GoHeap :=
  fun r2 => if r2 = r then v else h r2

/-- A guarded store: perform the conditional assignment of one Go
if-statement, writing `v` at `pa` when the condition holds. -/
def guardedStore (c : Prop) [Decidable c] (h : GoHeap) (pa : GoRef) (v : Asset) : GoHeap :=
  if c then hupd h pa v else h

/-- Store-level step for the asset-type fill of `MergeAsset`. -/
def goAssetType (pa pb : GoRef) (h : GoHeap) : GoHeap :=
  guardedStore ((h pa).AssetType = "" ∧ (h pb).AssetType ≠ "") h pa
    { h pa with AssetType := (h pb).AssetType }

/-- Store-level step for the `CIK` merge of `MergeAsset`. -/
def goCIK (now : Int) (pa pb : GoRef) (h : GoHeap) : GoHeap :=
  guardedStore ((h pb).CIK ≠ "" ∧ (h pa).CIK ≠ (h pb).CIK) h pa
    { h pa with
      UpdateReason := "CIK changed " ++ (h pa).CIK ++ " to " ++ (h pb).CIK,
      CIK := (h pb).CIK, Updated := true, LastUpdated := now }

/-- Store-level step for the `CUSIP` merge of `MergeAsset`. -/
def goCUSIP (now : Int) (pa pb : GoRef) (h : GoHeap) : GoHeap :=
  guardedStore ((h pb).CUSIP ≠ "" ∧ (h pa).CUSIP ≠ (h pb).CUSIP) h pa
    { h pa with
      UpdateReason := "CUSIP changed " ++ (h pa).CUSIP ++ " to " ++ (h pb).CUSIP,
      CUSIP := (h pb).CUSIP, Updated := true, LastUpdated := now }

/-- Store-level step for the `CompositeFigi` merge of `MergeAsset`. -/
def goCompositeFigi (now : Int) (pa pb : GoRef) (h : GoHeap) : GoHeap :=
  guardedStore ((h pb).CompositeFigi ≠ "" ∧ (h pa).CompositeFigi ≠ (h pb).CompositeFigi) h pa
    { h pa with
      UpdateReason := "CompositeFigi changed " ++ (h pa).CompositeFigi ++ " to " ++ (h pb).CompositeFigi,
      CompositeFigi := (h pb).CompositeFigi, Updated := true, LastUpdated := now }

/-- Store-level step for the `CorporateUrl` merge of `MergeAsset`. -/
def goCorporateUrl (now : Int) (pa pb : GoRef) (h : GoHeap) : GoHeap :=
  guardedStore ((h pb).CorporateUrl ≠ "" ∧ (h pa).CorporateUrl ≠ (h pb).CorporateUrl) h pa
    { h pa with
      UpdateReason := "CorporateUrl changed " ++ (h pa).CorporateUrl ++ " to " ++ (h pb).CorporateUrl,
      CorporateUrl := (h pb).CorporateUrl, Updated := true, LastUpdated := now }

/-- Store-level step for the `DelistingDate` merge of `MergeAsset`. -/
def goDelistingDate (now : Int) (pa pb : GoRef) (h : GoHeap) : GoHeap :=
  guardedStore ((h pb).DelistingDate ≠ "" ∧ (h pa).DelistingDate ≠ (h pb).DelistingDate) h pa
    { h pa with
      UpdateReason := "DelistingDate changed " ++ (h pa).DelistingDate ++ " to " ++ (h pb).DelistingDate,
      DelistingDate := (h pb).DelistingDate, Updated := true, LastUpdated := now }

/-- Store-level step for the `Description` merge of `MergeAsset`. -/
def goDescription (now : Int) (pa pb : GoRef) (h : GoHeap) : GoHeap :=
  guardedStore ((h pb).Description ≠ "" ∧ (h pa).Description ≠ (h pb).Description) h pa
    { h pa with
      UpdateReason := "Description changed " ++ (h pa).Description ++ " to " ++ (h pb).Description,
      Description := (h pb).Description, Updated := true, LastUpdated := now }

/-- Store-level step for the `HeadquartersLocation` merge of `MergeAsset`. -/
def goHeadquartersLocation (now : Int) (pa pb : GoRef) (h : GoHeap) : GoHeap :=
  guardedStore ((h pb).HeadquartersLocation ≠ "" ∧ (h pa).HeadquartersLocation ≠ (h pb).HeadquartersLocation) h pa
    { h pa with
      UpdateReason := "HeadquartersLocation changed " ++ (h pa).HeadquartersLocation ++ " to " ++ (h pb).HeadquartersLocation,
      HeadquartersLocation := (h pb).HeadquartersLocation, Updated := true, LastUpdated := now }

/-- Store-level step for the `ISIN` merge of `MergeAsset`. -/
def goISIN (now : Int) (pa pb : GoRef) (h : GoHeap) : GoHeap :=
  guardedStore ((h pb).ISIN ≠ "" ∧ (h pa).ISIN ≠ (h pb).ISIN) h pa
    { h pa with
      UpdateReason := "ISIN changed " ++ (h pa).ISIN ++ " to " ++ (h pb).ISIN,
      ISIN := (h pb).ISIN, Updated := true, LastUpdated := now }

/-- Store-level step for the `IconUrl` merge of `MergeAsset`. -/
def goIconUrl (now : Int) (pa pb : GoRef) (h : GoHeap) : GoHeap :=
  guardedStore ((h pb).IconUrl ≠ "" ∧ (h pa).IconUrl ≠ (h pb).IconUrl) h pa
    { h pa with
      UpdateReason := "IconUrl changed " ++ (h pa).IconUrl ++ " to " ++ (h pb).IconUrl,
      IconUrl := (h pb).IconUrl, Updated := true, LastUpdated := now }

/-- Store-level step for the `Industry` merge of `MergeAsset`. -/
def goIndustry (now : Int) (pa pb : GoRef) (h : GoHeap) : GoHeap :=
  guardedStore ((h pb).Industry ≠ "" ∧ (h pa).Industry ≠ (h pb).Industry) h pa
    { h pa with
      UpdateReason := "Industry changed " ++ (h pa).Industry ++ " to " ++ (h pb).Industry,
      Industry := (h pb).Industry, Updated := true, LastUpdated := now }

/-- Store-level step for the `ListingDate` merge of `MergeAsset`. -/
def goListingDate (now : Int) (pa pb : GoRef) (h : GoHeap) : GoHeap :=
  guardedStore ((h pb).ListingDate ≠ "" ∧ (h pa).ListingDate ≠ (h pb).ListingDate) h pa
    { h pa with
      UpdateReason := "ListingDate changed " ++ (h pa).ListingDate ++ " to " ++ (h pb).ListingDate,
      ListingDate := (h pb).ListingDate, Updated := true, LastUpdated := now }

/-- Store-level step for the `Name` merge of `MergeAsset`. -/
def goName (now : Int) (pa pb : GoRef) (h : GoHeap) : GoHeap :=
  guardedStore ((h pb).Name ≠ "" ∧ (h pa).Name ≠ (h pb).Name) h pa
    { h pa with
      UpdateReason := "Name changed " ++ (h pa).Name ++ " to " ++ (h pb).Name,
      Name := (h pb).Name, Updated := true, LastUpdated := now }

/-- Store-level step for the `PrimaryExchange` merge of `MergeAsset`. -/
def goPrimaryExchange (now : Int) (pa pb : GoRef) (h : GoHeap) : GoHeap :=
  guardedStore ((h pb).PrimaryExchange ≠ "" ∧ (h pa).PrimaryExchange ≠ (h pb).PrimaryExchange) h pa
    { h pa with
      UpdateReason := "PrimaryExchange changed " ++ (h pa).PrimaryExchange ++ " to " ++ (h pb).PrimaryExchange,
      PrimaryExchange := (h pb).PrimaryExchange, Updated := true, LastUpdated := now }

/-- Store-level step for the `Sector` merge of `MergeAsset`. -/
def goSector (now : Int) (pa pb : GoRef) (h : GoHeap) : GoHeap :=
  guardedStore ((h pb).Sector ≠ "" ∧ (h pa).Sector ≠ (h pb).Sector) h pa
    { h pa with
      UpdateReason := "Sector changed " ++ (h pa).Sector ++ " to " ++ (h pb).Sector,
      Sector := (h pb).Sector, Updated := true, LastUpdated := now }

/-- Store-level step for the `ShareClassFigi` merge of `MergeAsset`. -/
def goShareClassFigi (now : Int) (pa pb : GoRef) (h : GoHeap) : GoHeap :=
  guardedStore ((h pb).ShareClassFigi ≠ "" ∧ (h pa).ShareClassFigi ≠ (h pb).ShareClassFigi) h pa
    { h pa with
      UpdateReason := "ShareClassFigi changed " ++ (h pa).ShareClassFigi ++ " to " ++ (h pb).ShareClassFigi,
      ShareClassFigi := (h pb).ShareClassFigi, Updated := true, LastUpdated := now }

/-- Store-level embedding of the Go call `MergeAsset(a, b)` with `a` at `pa`
and `b` at `pb`: every assignment of the body targets a field of `a`, so each
guarded statement becomes a conditional store at `pa`; every read goes
through the current store, so the embedding is faithful even when the two
pointers alias.  The result is the final store and the returned pointer. -/
def mergeAssetGoCall (now : Int) (pa pb : GoRef) (h0 : GoHeap) : GoHeap × GoRef :=
  if (h0 pa).Ticker ≠ (h0 pb).Ticker then (h0, pa)
  else
    (goShareClassFigi now pa pb (goSector now pa pb (goPrimaryExchange now pa pb (goName now pa pb (goListingDate now pa pb (goIndustry now pa pb (goIconUrl now pa pb (goISIN now pa pb (goHeadquartersLocation now pa pb (goDescription now pa pb (goDelistingDate now pa pb (goCorporateUrl now pa pb (goCompositeFigi now pa pb (goCUSIP now pa pb (goCIK now pa pb (goAssetType pa pb h0))))))))))))))), pa)

/-- A record with only the ticker set; used for concrete instances. -/
def tickerOnly (t : String) : Asset := { emptyAsset with Ticker := t }

/-- Concrete record with a populated CIK. -/
def recWithCIK : Asset := { emptyAsset with Ticker := "T", CIK := "7" }

/-- Concrete record with a populated source tag. -/
def recSrcA : Asset := { emptyAsset with Ticker := "T", Source := "api.polygon.io" }

/-- Concrete record with a different populated source tag. -/
def recSrcB : Asset := { emptyAsset with Ticker := "T", Source := "api.tiingo.com" }

/-- Concrete record with a populated asset type. -/
def recTyped : Asset := { emptyAsset with Ticker := "T", AssetType := "Common Stock" }

/-- Dedup example record A: mutual fund listed 2020-01-01 under figi BBG000. -/
def figiA : Asset := { emptyAsset with Ticker := "A", CompositeFigi := "BBG000", AssetType := "Mutual Fund", ListingDate := "2020-01-01" }

/-- Dedup example record B: common stock listed 2019-01-01 under figi BBG000. -/
def figiB : Asset := { emptyAsset with Ticker := "B", CompositeFigi := "BBG000", AssetType := "Common Stock", ListingDate := "2019-01-01" }

/-- Dedup example record C: closed-end fund listed 2021-01-01 under figi BBG000. -/
def figiC : Asset := { emptyAsset with Ticker := "C", CompositeFigi := "BBG000", AssetType := "Closed-End Fund", ListingDate := "2021-01-01" }

/-- Concrete record with an empty composite figi. -/
def emptyFigi1 : Asset := { emptyAsset with Ticker := "A", AssetType := "Common Stock" }

/-- A second concrete record with an empty composite figi. -/
def emptyFigi2 : Asset := { emptyAsset with Ticker := "B", AssetType := "Common Stock" }

/-- Concrete record with the unique composite figi F1. -/
def uniqFigi1 : Asset := { emptyAsset with Ticker := "A", CompositeFigi := "F1" }

/-- Concrete record with the unique composite figi F2. -/
def uniqFigi2 : Asset := { emptyAsset with Ticker := "B", CompositeFigi := "F2" }

/-- Concrete record already marked delisted. -/
def delistedRec : Asset := { emptyAsset with Ticker := "X", DelistingDate := "2022-01-01" }

/-- The ticker is never modified by a merge. -/
theorem MergeAsset_Ticker (now : Int) (a b : Asset) :
    (MergeAsset now a b).Ticker = a.Ticker := by
  unfold MergeAsset
  split
  · rfl
  · simp only [apply_ite (fun x : Asset => x.Ticker), ite_self]

/-- The asset type is only filled when unset and the incoming value is non-empty. -/
theorem MergeAsset_AssetType (now : Int) (a b : Asset) :
    (MergeAsset now a b).AssetType =
      if a.Ticker ≠ b.Ticker then a.AssetType
      else if a.AssetType = "" ∧ b.AssetType ≠ "" then b.AssetType else a.AssetType := by
  unfold MergeAsset
  split
  · simp_all
  · simp only [apply_ite (fun x : Asset => x.AssetType), ite_self]

/-- The source tag is never modified by the current merge policy. -/
theorem MergeAsset_Source (now : Int) (a b : Asset) :
    (MergeAsset now a b).Source = a.Source := by
  unfold MergeAsset
  split
  · rfl
  · simp only [apply_ite (fun x : Asset => x.Source), ite_self]

/-- Field characterization of the merge step for `CIK`. -/
theorem MergeAsset_CIK (now : Int) (a b : Asset) :
    (MergeAsset now a b).CIK =
      if a.Ticker ≠ b.Ticker then a.CIK
      else if b.CIK ≠ "" ∧ a.CIK ≠ b.CIK then b.CIK else a.CIK := by
  unfold MergeAsset
  split
  · simp_all
  · simp only [apply_ite (fun x : Asset => x.CIK), ite_self]

/-- Field characterization of the merge step for `CUSIP`. -/
theorem MergeAsset_CUSIP (now : Int) (a b : Asset) :
    (MergeAsset now a b).CUSIP =
      if a.Ticker ≠ b.Ticker then a.CUSIP
      else if b.CUSIP ≠ "" ∧ a.CUSIP ≠ b.CUSIP then b.CUSIP else a.CUSIP := by
  unfold MergeAsset
  split
  · simp_all
  · simp only [apply_ite (fun x : Asset => x.CUSIP), ite_self]

/-- Field characterization of the merge step for `CompositeFigi`. -/
theorem MergeAsset_CompositeFigi (now : Int) (a b : Asset) :
    (MergeAsset now a b).CompositeFigi =
      if a.Ticker ≠ b.Ticker then a.CompositeFigi
      else if b.CompositeFigi ≠ "" ∧ a.CompositeFigi ≠ b.CompositeFigi then b.CompositeFigi else a.CompositeFigi := by
  unfold MergeAsset
  split
  · simp_all
  · simp only [apply_ite (fun x : Asset => x.CompositeFigi), ite_self]

/-- Field characterization of the merge step for `CorporateUrl`. -/
theorem MergeAsset_CorporateUrl (now : Int) (a b : Asset) :
    (MergeAsset now a b).CorporateUrl =
      if a.Ticker ≠ b.Ticker then a.CorporateUrl
      else if b.CorporateUrl ≠ "" ∧ a.CorporateUrl ≠ b.CorporateUrl then b.CorporateUrl else a.CorporateUrl := by
  unfold MergeAsset
  split
  · simp_all
  · simp only [apply_ite (fun x : Asset => x.CorporateUrl), ite_self]

/-- Field characterization of the merge step for `DelistingDate`. -/
theorem MergeAsset_DelistingDate (now : Int) (a b : Asset) :
    (MergeAsset now a b).DelistingDate =
      if a.Ticker ≠ b.Ticker then a.DelistingDate
      else if b.DelistingDate ≠ "" ∧ a.DelistingDate ≠ b.DelistingDate then b.DelistingDate else a.DelistingDate := by
  unfold MergeAsset
  split
  · simp_all
  · simp only [apply_ite (fun x : Asset => x.DelistingDate), ite_self]

/-- Field characterization of the merge step for `Description`. -/
theorem MergeAsset_Description (now : Int) (a b : Asset) :
    (MergeAsset now a b).Description =
      if a.Ticker ≠ b.Ticker then a.Description
      else if b.Description ≠ "" ∧ a.Description ≠ b.Description then b.Description else a.Description := by
  unfold MergeAsset
  split
  · simp_all
  · simp only [apply_ite (fun x : Asset => x.Description), ite_self]

/-- Field characterization of the merge step for `HeadquartersLocation`. -/
theorem MergeAsset_HeadquartersLocation (now : Int) (a b : Asset) :
    (MergeAsset now a b).HeadquartersLocation =
      if a.Ticker ≠ b.Ticker then a.HeadquartersLocation
      else if b.HeadquartersLocation ≠ "" ∧ a.HeadquartersLocation ≠ b.HeadquartersLocation then b.HeadquartersLocation else a.HeadquartersLocation := by
  unfold MergeAsset
  split
  · simp_all
  · simp only [apply_ite (fun x : Asset => x.HeadquartersLocation), ite_self]

/-- Field characterization of the merge step for `ISIN`. -/
theorem MergeAsset_ISIN (now : Int) (a b : Asset) :
    (MergeAsset now a b).ISIN =
      if a.Ticker ≠ b.Ticker then a.ISIN
      else if b.ISIN ≠ "" ∧ a.ISIN ≠ b.ISIN then b.ISIN else a.ISIN := by
  unfold MergeAsset
  split
  · simp_all
  · simp only [apply_ite (fun x : Asset => x.ISIN), ite_self]

/-- Field characterization of the merge step for `IconUrl`. -/
theorem MergeAsset_IconUrl (now : Int) (a b : Asset) :
    (MergeAsset now a b).IconUrl =
      if a.Ticker ≠ b.Ticker then a.IconUrl
      else if b.IconUrl ≠ "" ∧ a.IconUrl ≠ b.IconUrl then b.IconUrl else a.IconUrl := by
  unfold MergeAsset
  split
  · simp_all
  · simp only [apply_ite (fun x : Asset => x.IconUrl), ite_self]

/-- Field characterization of the merge step for `Industry`. -/
theorem MergeAsset_Industry (now : Int) (a b : Asset) :
    (MergeAsset now a b).Industry =
      if a.Ticker ≠ b.Ticker then a.Industry
      else if b.Industry ≠ "" ∧ a.Industry ≠ b.Industry then b.Industry else a.Industry := by
  unfold MergeAsset
  split
  · simp_all
  · simp only [apply_ite (fun x : Asset => x.Industry), ite_self]

/-- Field characterization of the merge step for `ListingDate`. -/
theorem MergeAsset_ListingDate (now : Int) (a b : Asset) :
    (MergeAsset now a b).ListingDate =
      if a.Ticker ≠ b.Ticker then a.ListingDate
      else if b.ListingDate ≠ "" ∧ a.ListingDate ≠ b.ListingDate then b.ListingDate else a.ListingDate := by
  unfold MergeAsset
  split
  · simp_all
  · simp only [apply_ite (fun x : Asset => x.ListingDate), ite_self]

/-- Field characterization of the merge step for `Name`. -/
theorem MergeAsset_Name (now : Int) (a b : Asset) :
    (MergeAsset now a b).Name =
      if a.Ticker ≠ b.Ticker then a.Name
      else if b.Name ≠ "" ∧ a.Name ≠ b.Name then b.Name else a.Name := by
  unfold MergeAsset
  split
  · simp_all
  · simp only [apply_ite (fun x : Asset => x.Name), ite_self]

/-- Field characterization of the merge step for `PrimaryExchange`. -/
theorem MergeAsset_PrimaryExchange (now : Int) (a b : Asset) :
    (MergeAsset now a b).PrimaryExchange =
      if a.Ticker ≠ b.Ticker then a.PrimaryExchange
      else if b.PrimaryExchange ≠ "" ∧ a.PrimaryExchange ≠ b.PrimaryExchange then b.PrimaryExchange else a.PrimaryExchange := by
  unfold MergeAsset
  split
  · simp_all
  · simp only [apply_ite (fun x : Asset => x.PrimaryExchange), ite_self]

/-- Field characterization of the merge step for `Sector`. -/
theorem MergeAsset_Sector (now : Int) (a b : Asset) :
    (MergeAsset now a b).Sector =
      if a.Ticker ≠ b.Ticker then a.Sector
      else if b.Sector ≠ "" ∧ a.Sector ≠ b.Sector then b.Sector else a.Sector := by
  unfold MergeAsset
  split
  · simp_all
  · simp only [apply_ite (fun x : Asset => x.Sector), ite_self]

/-- Field characterization of the merge step for `ShareClassFigi`. -/
theorem MergeAsset_ShareClassFigi (now : Int) (a b : Asset) :
    (MergeAsset now a b).ShareClassFigi =
      if a.Ticker ≠ b.Ticker then a.ShareClassFigi
      else if b.ShareClassFigi ≠ "" ∧ a.ShareClassFigi ≠ b.ShareClassFigi then b.ShareClassFigi else a.ShareClassFigi := by
  unfold MergeAsset
  split
  · simp_all
  · simp only [apply_ite (fun x : Asset => x.ShareClassFigi), ite_self]

/-- Claim C9: MergeAsset is idempotent: merging a record with a
field-for-field copy of itself changes no field, leaves the updated flag as it
was (in particular never sets it), and does not refresh the last-updated
timestamp. -/
theorem merge_idempotent (now : Int) (a : Asset) : MergeAsset now a a = a := by
  simp [MergeAsset]

/-- Claim C3: for records with equal tickers, MergeAsset never replaces a
populated existing field value with an empty incoming field value: whenever
the incoming value of a field is empty, the merged record keeps the existing
value of that field, for every merged field of the record. -/
theorem merge_never_erases (now : Int) (a b : Asset) (h : a.Ticker = b.Ticker) :
    (b.AssetType = "" → (MergeAsset now a b).AssetType = a.AssetType)
      ∧ (b.CIK = "" → (MergeAsset now a b).CIK = a.CIK)
      ∧ (b.CUSIP = "" → (MergeAsset now a b).CUSIP = a.CUSIP)
      ∧ (b.CompositeFigi = "" → (MergeAsset now a b).CompositeFigi = a.CompositeFigi)
      ∧ (b.CorporateUrl = "" → (MergeAsset now a b).CorporateUrl = a.CorporateUrl)
      ∧ (b.DelistingDate = "" → (MergeAsset now a b).DelistingDate = a.DelistingDate)
      ∧ (b.Description = "" → (MergeAsset now a b).Description = a.Description)
      ∧ (b.HeadquartersLocation = "" → (MergeAsset now a b).HeadquartersLocation = a.HeadquartersLocation)
      ∧ (b.ISIN = "" → (MergeAsset now a b).ISIN = a.ISIN)
      ∧ (b.IconUrl = "" → (MergeAsset now a b).IconUrl = a.IconUrl)
      ∧ (b.Industry = "" → (MergeAsset now a b).Industry = a.Industry)
      ∧ (b.ListingDate = "" → (MergeAsset now a b).ListingDate = a.ListingDate)
      ∧ (b.Name = "" → (MergeAsset now a b).Name = a.Name)
      ∧ (b.PrimaryExchange = "" → (MergeAsset now a b).PrimaryExchange = a.PrimaryExchange)
      ∧ (b.Sector = "" → (MergeAsset now a b).Sector = a.Sector)
      ∧ (b.ShareClassFigi = "" → (MergeAsset now a b).ShareClassFigi = a.ShareClassFigi)
      ∧ (b.Source = "" → (MergeAsset now a b).Source = a.Source) := by
  refine ⟨?_, ?_, ?_, ?_, ?_, ?_, ?_, ?_, ?_, ?_, ?_, ?_, ?_, ?_, ?_, ?_, ?_⟩ <;> intro hb <;>
    simp [MergeAsset_AssetType, MergeAsset_CIK, MergeAsset_CUSIP, MergeAsset_CompositeFigi, MergeAsset_CorporateUrl, MergeAsset_DelistingDate, MergeAsset_Description, MergeAsset_HeadquartersLocation, MergeAsset_ISIN, MergeAsset_IconUrl, MergeAsset_Industry, MergeAsset_ListingDate, MergeAsset_Name, MergeAsset_PrimaryExchange, MergeAsset_Sector, MergeAsset_ShareClassFigi, MergeAsset_Source, h, hb]

/-- Witness for claim C3 at a concrete input: the existing record has CIK 7,
the incoming record leaves every field empty, and the merge keeps every
existing value. -/
theorem merge_never_erases_witness :
    recWithCIK.Ticker = (tickerOnly "T").Ticker
      ∧ (((tickerOnly "T").AssetType = "" → (MergeAsset 0 recWithCIK (tickerOnly "T")).AssetType = recWithCIK.AssetType)
      ∧ ((tickerOnly "T").CIK = "" → (MergeAsset 0 recWithCIK (tickerOnly "T")).CIK = recWithCIK.CIK)
      ∧ ((tickerOnly "T").CUSIP = "" → (MergeAsset 0 recWithCIK (tickerOnly "T")).CUSIP = recWithCIK.CUSIP)
      ∧ ((tickerOnly "T").CompositeFigi = "" → (MergeAsset 0 recWithCIK (tickerOnly "T")).CompositeFigi = recWithCIK.CompositeFigi)
      ∧ ((tickerOnly "T").CorporateUrl = "" → (MergeAsset 0 recWithCIK (tickerOnly "T")).CorporateUrl = recWithCIK.CorporateUrl)
      ∧ ((tickerOnly "T").DelistingDate = "" → (MergeAsset 0 recWithCIK (tickerOnly "T")).DelistingDate = recWithCIK.DelistingDate)
      ∧ ((tickerOnly "T").Description = "" → (MergeAsset 0 recWithCIK (tickerOnly "T")).Description = recWithCIK.Description)
      ∧ ((tickerOnly "T").HeadquartersLocation = "" → (MergeAsset 0 recWithCIK (tickerOnly "T")).HeadquartersLocation = recWithCIK.HeadquartersLocation)
      ∧ ((tickerOnly "T").ISIN = "" → (MergeAsset 0 recWithCIK (tickerOnly "T")).ISIN = recWithCIK.ISIN)
      ∧ ((tickerOnly "T").IconUrl = "" → (MergeAsset 0 recWithCIK (tickerOnly "T")).IconUrl = recWithCIK.IconUrl)
      ∧ ((tickerOnly "T").Industry = "" → (MergeAsset 0 recWithCIK (tickerOnly "T")).Industry = recWithCIK.Industry)
      ∧ ((tickerOnly "T").ListingDate = "" → (MergeAsset 0 recWithCIK (tickerOnly "T")).ListingDate = recWithCIK.ListingDate)
      ∧ ((tickerOnly "T").Name = "" → (MergeAsset 0 recWithCIK (tickerOnly "T")).Name = recWithCIK.Name)
      ∧ ((tickerOnly "T").PrimaryExchange = "" → (MergeAsset 0 recWithCIK (tickerOnly "T")).PrimaryExchange = recWithCIK.PrimaryExchange)
      ∧ ((tickerOnly "T").Sector = "" → (MergeAsset 0 recWithCIK (tickerOnly "T")).Sector = recWithCIK.Sector)
      ∧ ((tickerOnly "T").ShareClassFigi = "" → (MergeAsset 0 recWithCIK (tickerOnly "T")).ShareClassFigi = recWithCIK.ShareClassFigi)
      ∧ ((tickerOnly "T").Source = "" → (MergeAsset 0 recWithCIK (tickerOnly "T")).Source = recWithCIK.Source)) :=
  ⟨rfl, merge_never_erases 0 recWithCIK (tickerOnly "T") rfl⟩

/-- Claim C7: for records with equal tickers, the asset type of the existing
record is overwritten exactly when the existing value is unset and the
incoming value is non-empty; in particular two populated differing values
leave the existing value unchanged. -/
theorem merge_asset_type_fill_only (now : Int) (a b : Asset) (h : a.Ticker = b.Ticker) :
    (MergeAsset now a b).AssetType
        = (if a.AssetType = "" ∧ b.AssetType ≠ "" then b.AssetType else a.AssetType)
      ∧ (a.AssetType ≠ "" → (MergeAsset now a b).AssetType = a.AssetType) := by
  constructor
  · rw [MergeAsset_AssetType]
    simp [h]
  · intro hA
    rw [MergeAsset_AssetType]
    simp [h, hA]

/-- Witness for claim C7 at a concrete input: an unset existing asset type is
filled from a populated incoming one. -/
theorem merge_asset_type_fill_only_witness :
    (tickerOnly "T").Ticker = recTyped.Ticker
      ∧ ((MergeAsset 0 (tickerOnly "T") recTyped).AssetType
            = (if (tickerOnly "T").AssetType = "" ∧ recTyped.AssetType ≠ ""
               then recTyped.AssetType else (tickerOnly "T").AssetType)
          ∧ ((tickerOnly "T").AssetType ≠ ""
              → (MergeAsset 0 (tickerOnly "T") recTyped).AssetType = (tickerOnly "T").AssetType)) :=
  ⟨rfl, merge_asset_type_fill_only 0 (tickerOnly "T") recTyped rfl⟩

/-- Claim C8 as stated is false on the current MergeAsset: two records with
equal tickers and differing populated Source tags merge without the incoming
Source overwriting the existing one; the whole record, timestamp included, is
unchanged. -/
theorem source_inequality_counterexample :
    recSrcA.Ticker = recSrcB.Ticker ∧ recSrcA.Source ≠ recSrcB.Source
      ∧ (MergeAsset 5 recSrcA recSrcB).Source ≠ recSrcB.Source
      ∧ MergeAsset 5 recSrcA recSrcB = recSrcA := by decide

/-- Claim C8 amended: the current MergeAsset does not merge the Source field
at all: the merged record always keeps the existing Source, whatever the
incoming Source holds.  (The plain-inequality Source merge appears only in an
older revision of the function.) -/
theorem merge_preserves_source (now : Int) (a b : Asset) :
    (MergeAsset now a b).Source = a.Source :=
  MergeAsset_Source now a b

/-- Claim C2 as stated is false: a record of the final collection carrying a
non-empty delisting date is skipped by the persistence loop of SaveToParquet
and is absent from the persisted columnar snapshot. -/
theorem delisted_excluded_counterexample :
    delistedRec.DelistingDate ≠ "" ∧ delistedRec ∈ [delistedRec]
      ∧ delistedRec ∉ SaveToParquetRows [delistedRec] := by decide

/-- Claim C2 amended: the persisted columnar snapshot consists of exactly the
records of the final collection whose delisting date is empty; every record
carrying a non-empty delisting date is excluded from it (delisting marks
reach only the relational store, not the parquet snapshot). -/
theorem parquet_rows_active_only (records : List Asset) (r : Asset) :
    r ∈ SaveToParquetRows records ↔ r ∈ records ∧ r.DelistingDate = "" := by
  simp [SaveToParquetRows]

/-- A store update at one reference leaves every other reference unchanged. -/
theorem hupd_ne {h : GoHeap} {pa : GoRef} {v : Asset} {r : GoRef} (hr : r ≠ pa) :
    hupd h pa v r = h r := by
  simp [hupd, hr]

/-- A guarded store at one reference leaves every other reference unchanged. -/
theorem guardedStore_ne {c : Prop} [Decidable c] {h : GoHeap} {pa : GoRef}
    {v : Asset} {r : GoRef} (hr : r ≠ pa) : guardedStore c h pa v r = h r := by
  unfold guardedStore
  split
  · exact hupd_ne hr
  · rfl

/-- The asset-type step writes only at the existing-record reference. -/
theorem goAssetType_ne {pa pb : GoRef} {h : GoHeap} {r : GoRef} (hr : r ≠ pa) :
    goAssetType pa pb h r = h r :=
  guardedStore_ne hr

/-- The `CIK` step writes only at the existing-record reference. -/
theorem goCIK_ne {now : Int} {pa pb : GoRef} {h : GoHeap} {r : GoRef} (hr : r ≠ pa) :
    goCIK now pa pb h r = h r :=
  guardedStore_ne hr

/-- The `CUSIP` step writes only at the existing-record reference. -/
theorem goCUSIP_ne {now : Int} {pa pb : GoRef} {h : GoHeap} {r : GoRef} (hr : r ≠ pa) :
    goCUSIP now pa pb h r = h r :=
  guardedStore_ne hr

/-- The `CompositeFigi` step writes only at the existing-record reference. -/
theorem goCompositeFigi_ne {now : Int} {pa pb : GoRef} {h : GoHeap} {r : GoRef} (hr : r ≠ pa) :
    goCompositeFigi now pa pb h r = h r :=
  guardedStore_ne hr

/-- The `CorporateUrl` step writes only at the existing-record reference. -/
theorem goCorporateUrl_ne {now : Int} {pa pb : GoRef} {h : GoHeap} {r : GoRef} (hr : r ≠ pa) :
    goCorporateUrl now pa pb h r = h r :=
  guardedStore_ne hr

/-- The `DelistingDate` step writes only at the existing-record reference. -/
theorem goDelistingDate_ne {now : Int} {pa pb : GoRef} {h : GoHeap} {r : GoRef} (hr : r ≠ pa) :
    goDelistingDate now pa pb h r = h r :=
  guardedStore_ne hr

/-- The `Description` step writes only at the existing-record reference. -/
theorem goDescription_ne {now : Int} {pa pb : GoRef} {h : GoHeap} {r : GoRef} (hr : r ≠ pa) :
    goDescription now pa pb h r = h r :=
  guardedStore_ne hr

/-- The `HeadquartersLocation` step writes only at the existing-record reference. -/
theorem goHeadquartersLocation_ne {now : Int} {pa pb : GoRef} {h : GoHeap} {r : GoRef} (hr : r ≠ pa) :
    goHeadquartersLocation now pa pb h r = h r :=
  guardedStore_ne hr

/-- The `ISIN` step writes only at the existing-record reference. -/
theorem goISIN_ne {now : Int} {pa pb : GoRef} {h : GoHeap} {r : GoRef} (hr : r ≠ pa) :
    goISIN now pa pb h r = h r :=
  guardedStore_ne hr

/-- The `IconUrl` step writes only at the existing-record reference. -/
theorem goIconUrl_ne {now : Int} {pa pb : GoRef} {h : GoHeap} {r : GoRef} (hr : r ≠ pa) :
    goIconUrl now pa pb h r = h r :=
  guardedStore_ne hr

/-- The `Industry` step writes only at the existing-record reference. -/
theorem goIndustry_ne {now : Int} {pa pb : GoRef} {h : GoHeap} {r : GoRef} (hr : r ≠ pa) :
    goIndustry now pa pb h r = h r :=
  guardedStore_ne hr

/-- The `ListingDate` step writes only at the existing-record reference. -/
theorem goListingDate_ne {now : Int} {pa pb : GoRef} {h : GoHeap} {r : GoRef} (hr : r ≠ pa) :
    goListingDate now pa pb h r = h r :=
  guardedStore_ne hr

/-- The `Name` step writes only at the existing-record reference. -/
theorem goName_ne {now : Int} {pa pb : GoRef} {h : GoHeap} {r : GoRef} (hr : r ≠ pa) :
    goName now pa pb h r = h r :=
  guardedStore_ne hr

/-- The `PrimaryExchange` step writes only at the existing-record reference. -/
theorem goPrimaryExchange_ne {now : Int} {pa pb : GoRef} {h : GoHeap} {r : GoRef} (hr : r ≠ pa) :
    goPrimaryExchange now pa pb h r = h r :=
  guardedStore_ne hr

/-- The `Sector` step writes only at the existing-record reference. -/
theorem goSector_ne {now : Int} {pa pb : GoRef} {h : GoHeap} {r : GoRef} (hr : r ≠ pa) :
    goSector now pa pb h r = h r :=
  guardedStore_ne hr

/-- The `ShareClassFigi` step writes only at the existing-record reference. -/
theorem goShareClassFigi_ne {now : Int} {pa pb : GoRef} {h : GoHeap} {r : GoRef} (hr : r ≠ pa) :
    goShareClassFigi now pa pb h r = h r :=
  guardedStore_ne hr

/-- Claim C10: the Go call MergeAsset(a, b) on two distinct records never
mutates the incoming record b: the store cell of b (and of every reference
other than a) holds the same record after the call, and the returned
reference is a itself. -/
theorem merge_frame_incoming_unchanged (now : Int) (pa pb : GoRef) (h : GoHeap)
    (hne : pa ≠ pb) :
    (mergeAssetGoCall now pa pb h).1 pb = h pb
      ∧ (∀ r, r ≠ pa → (mergeAssetGoCall now pa pb h).1 r = h r)
      ∧ (mergeAssetGoCall now pa pb h).2 = pa := by
  have key : ∀ r, r ≠ pa → (mergeAssetGoCall now pa pb h).1 r = h r := by
    intro r hr
    unfold mergeAssetGoCall
    split
    · rfl
    · simp only [goShareClassFigi_ne hr, goSector_ne hr, goPrimaryExchange_ne hr, goName_ne hr, goListingDate_ne hr, goIndustry_ne hr, goIconUrl_ne hr, goISIN_ne hr, goHeadquartersLocation_ne hr, goDescription_ne hr, goDelistingDate_ne hr, goCorporateUrl_ne hr, goCompositeFigi_ne hr, goCUSIP_ne hr, goCIK_ne hr, goAssetType_ne hr]
  refine ⟨key pb (Ne.symm hne), key, ?_⟩
  unfold mergeAssetGoCall
  split <;> rfl

/-- Witness for claim C10 at a concrete input: two distinct references over a
store holding empty records. -/
theorem merge_frame_incoming_unchanged_witness :
    GoRef.ra ≠ GoRef.rb
      ∧ ((mergeAssetGoCall 0 GoRef.ra GoRef.rb (fun _ => emptyAsset)).1 GoRef.rb
            = (fun _ : GoRef => emptyAsset) GoRef.rb
        ∧ (∀ r, r ≠ GoRef.ra →
            (mergeAssetGoCall 0 GoRef.ra GoRef.rb (fun _ => emptyAsset)).1 r
              = (fun _ : GoRef => emptyAsset) r)
        ∧ (mergeAssetGoCall 0 GoRef.ra GoRef.rb (fun _ => emptyAsset)).2 = GoRef.ra) :=
  ⟨by decide, merge_frame_incoming_unchanged 0 GoRef.ra GoRef.rb (fun _ => emptyAsset) (by decide)⟩

/-- The ticker map of `b` has no entry for `t` exactly when no record of `b`
carries ticker `t`. -/
theorem buildAssetMap_isNone (l : List Asset) (t : String) :
    (BuildAssetMap l t).isNone = !(l.any (fun y => y.Ticker == t)) := by
  rw [Bool.eq_iff_iff]
  simp only [Option.isNone_iff_eq_none, BuildAssetMap, List.find?_eq_none, List.mem_reverse,
    Bool.not_eq_true', List.any_eq_false]

/-- The subtraction loop counts exactly the database assets whose ticker is
absent from the merged collection. -/
theorem subtractAssets_length (a b : List Asset) :
    (SubtractAssets a b).length
      = (a.filter (fun x => !(b.any (fun y => y.Ticker == x.Ticker)))).length := by
  unfold SubtractAssets
  congr 1
  apply List.filter_congr
  intro x _
  exact buildAssetMap_isNone b x.Ticker

/-- Claim C1: with a database configured, the run aborts with the
distinguished asset-count exit code exactly when the removal count — the
number of active database assets whose ticker is absent from the merged
collection plus the number of merged records carrying a non-empty delisting
date — exceeds the configured maximum-removed-count; a run whose removal
count equals the maximum proceeds.  An abort yields no collection, so nothing
reaches the persistence calls that follow the check. -/
theorem safety_valve_aborts_iff (databaseUrl : String) (T : Nat)
    (dbAssets mergedAssets : List Asset) (today : String) (now : Int)
    (hdb : databaseUrl ≠ "") :
    (runPersistencePhase databaseUrl T dbAssets mergedAssets today now
        = Except.error ExitCode.assetCountOutOfRange
      ↔ removalCount dbAssets mergedAssets > T)
    ∧ (removalCount dbAssets mergedAssets = T →
        ∃ final, runPersistencePhase databaseUrl T dbAssets mergedAssets today now
          = Except.ok final) := by
  have hcount : removalCount dbAssets mergedAssets
      = (SubtractAssets dbAssets mergedAssets).length
        + (mergedAssets.filter (fun x => x.DelistingDate != "")).length := by
    unfold removalCount
    rw [subtractAssets_length]
  unfold runPersistencePhase
  rw [if_pos hdb, hcount]
  dsimp only
  constructor
  · split
    · rename_i hc
      simp [hc]
    · rename_i hc
      simp [hc]
  · intro hEq
    split
    · rename_i hc
      rw [hEq] at hc
      exact absurd hc (lt_irrefl T)
    · exact ⟨_, rfl⟩

/-- Witness for claim C1 at a concrete input: one active database asset whose
ticker is missing from an empty merged collection against a threshold of
zero. -/
theorem safety_valve_aborts_iff_witness :
    ("postgres" : String) ≠ ""
      ∧ ((runPersistencePhase "postgres" 0 [tickerOnly "DB1"] [] "2022-01-01" 0
            = Except.error ExitCode.assetCountOutOfRange
          ↔ removalCount [tickerOnly "DB1"] [] > 0)
        ∧ (removalCount [tickerOnly "DB1"] [] = 0 →
            ∃ final, runPersistencePhase "postgres" 0 [tickerOnly "DB1"] [] "2022-01-01" 0
              = Except.ok final)) :=
  ⟨by decide, safety_valve_aborts_iff "postgres" 0 [tickerOnly "DB1"] [] "2022-01-01" 0 (by decide)⟩

/-- A record of `second` merged into its `first` counterpart keeps its
ticker. -/
theorem mergeInto_ticker (now : Int) (first : List Asset) (x : Asset) :
    (match BuildAssetMap first x.Ticker with
     | some origAsset => MergeAsset now origAsset x
     | none => x).Ticker = x.Ticker := by
  rcases hfind : BuildAssetMap first x.Ticker with _ | orig
  · rfl
  · unfold BuildAssetMap at hfind
    have h2 := List.find?_some hfind
    simp only [MergeAsset_Ticker]
    exact eq_of_beq h2

/-- Merging every record of `l` into `first` does not change how many records
carry a given ticker. -/
theorem countP_mergeInto (now : Int) (first l : List Asset) (t : String) :
    ((l.map (fun x => match BuildAssetMap first x.Ticker with
       | some origAsset => MergeAsset now origAsset x
       | none => x)).countP (fun r => r.Ticker == t))
      = l.countP (fun r => r.Ticker == t) := by
  induction l with
  | nil => rfl
  | cons a l ih =>
    simp only [List.map_cons, List.countP_cons, ih, mergeInto_ticker]

/-- In a list with pairwise-distinct tickers, a ticker that occurs occurs on
exactly one record. -/
theorem countP_ticker_eq_one (l : List Asset) (t : String)
    (hn : (l.map Asset.Ticker).Nodup) (hx : ∃ x ∈ l, x.Ticker = t) :
    l.countP (fun r => r.Ticker == t) = 1 := by
  induction l with
  | nil =>
    rcases hx with ⟨x, hx, _⟩
    cases hx
  | cons a l ih =>
    rw [List.map_cons, List.nodup_cons] at hn
    rcases hn with ⟨ha, hn⟩
    rcases hx with ⟨x, hx, hxt⟩
    rcases List.mem_cons.mp hx with rfl | hxl
    · have hz : l.countP (fun r => r.Ticker == t) = 0 := by
        rw [List.countP_eq_zero]
        intro y hy hyt
        exact ha (hxt ▸ (eq_of_beq hyt) ▸ List.mem_map_of_mem Asset.Ticker hy)
      rw [List.countP_cons, hz]
      simp [hxt]
    · have hone := ih hn ⟨x, hxl, hxt⟩
      have hat : ¬ ((a.Ticker == t) = true) := by
        intro hbeq
        have h3 : x.Ticker ∈ l.map Asset.Ticker := List.mem_map_of_mem Asset.Ticker hxl
        rw [hxt, ← eq_of_beq hbeq] at h3
        exact ha h3
      rw [List.countP_cons, hone]
      simp [hat]

/-- No record of the first-only remainder carries a ticker that occurs in
`second`. -/
theorem countP_firstOnly_zero (first second : List Asset) (t : String)
    (hx : ∃ x ∈ second, x.Ticker = t) :
    ((first.filter (fun asset => (BuildAssetMap second asset.Ticker).isNone)).countP
        (fun r => r.Ticker == t)) = 0 := by
  rw [List.countP_eq_zero]
  intro a ha hbeq
  have hmem := List.mem_filter.mp ha
  have hnone : BuildAssetMap second a.Ticker = none :=
    Option.isNone_iff_eq_none.mp hmem.2
  unfold BuildAssetMap at hnone
  rw [List.find?_eq_none] at hnone
  rcases hx with ⟨x, hxs, hxt⟩
  exact hnone x (List.mem_reverse.mpr hxs)
    (by rw [beq_iff_eq, hxt, eq_of_beq hbeq])

/-- When a ticker occurs nowhere in `second`, the first-only remainder keeps
every record carrying it. -/
theorem countP_firstOnly_keep (first second : List Asset) (t : String)
    (hns : ∀ x ∈ second, x.Ticker ≠ t) :
    ((first.filter (fun asset => (BuildAssetMap second asset.Ticker).isNone)).countP
        (fun r => r.Ticker == t))
      = first.countP (fun r => r.Ticker == t) := by
  induction first with
  | nil => rfl
  | cons a l ih =>
    rcases hcase : (BuildAssetMap second a.Ticker).isNone with _ | _
    · have hpa : ¬ ((a.Ticker == t) = true) := by
        intro hbeq
        have hnone : BuildAssetMap second a.Ticker = none := by
          unfold BuildAssetMap
          rw [List.find?_eq_none]
          intro y hy hyb
          exact hns y (List.mem_reverse.mp hy)
            (by rw [← eq_of_beq hbeq]; exact eq_of_beq hyb)
        rw [hnone] at hcase
        cases hcase
      rw [List.filter_cons, List.countP_cons]
      simp [hcase, hpa, ih]
    · rw [List.filter_cons]
      simp only [hcase, if_true, List.countP_cons, ih]

/-- Claim C4: for an existing list and an incoming list with pairwise-distinct
tickers each, the combined output of MergeAssetList carries exactly one record
for every incoming ticker, exactly one record for every existing ticker absent
from the incoming list, and its length is the incoming count plus the count of
existing records whose ticker does not occur in the incoming list; no ticker
of either input is dropped. -/
theorem merge_asset_list_coverage (now : Int) (first second : List Asset)
    (hE : (first.map Asset.Ticker).Nodup) (hI : (second.map Asset.Ticker).Nodup) :
    (∀ t, (∃ x ∈ second, x.Ticker = t) →
        ((MergeAssetList now first second).1.countP (fun r => r.Ticker == t)) = 1)
    ∧ (∀ t, (∃ x ∈ first, x.Ticker = t) → (∀ x ∈ second, x.Ticker ≠ t) →
        ((MergeAssetList now first second).1.countP (fun r => r.Ticker == t)) = 1)
    ∧ (MergeAssetList now first second).1.length
        = second.length
          + (first.filter (fun a => !(second.any (fun y => y.Ticker == a.Ticker)))).length := by
  refine ⟨?_, ?_, ?_⟩
  · intro t hx
    unfold MergeAssetList
    rw [List.countP_append, countP_mergeInto, countP_ticker_eq_one second t hI hx,
      countP_firstOnly_zero first second t hx]
  · intro t hxf hns
    unfold MergeAssetList
    have hz : second.countP (fun r => r.Ticker == t) = 0 := by
      rw [List.countP_eq_zero]
      intro y hy hyb
      exact hns y hy (eq_of_beq hyb)
    rw [List.countP_append, countP_mergeInto, hz, countP_firstOnly_keep first second t hns,
      countP_ticker_eq_one first t hE hxf]
  · unfold MergeAssetList
    rw [List.length_append, List.length_map]
    congr 1
    congr 1
    apply List.filter_congr
    intro x _
    exact buildAssetMap_isNone second x.Ticker

/-- Witness for claim C4 at a concrete input: existing tickers A and B,
incoming tickers B and C. -/
theorem merge_asset_list_coverage_witness :
    (([tickerOnly "A", tickerOnly "B"].map Asset.Ticker).Nodup
        ∧ ([tickerOnly "B", tickerOnly "C"].map Asset.Ticker).Nodup)
      ∧ ((∀ t, (∃ x ∈ [tickerOnly "B", tickerOnly "C"], x.Ticker = t) →
            ((MergeAssetList 0 [tickerOnly "A", tickerOnly "B"]
                [tickerOnly "B", tickerOnly "C"]).1.countP (fun r => r.Ticker == t)) = 1)
        ∧ (∀ t, (∃ x ∈ [tickerOnly "A", tickerOnly "B"], x.Ticker = t) →
            (∀ x ∈ [tickerOnly "B", tickerOnly "C"], x.Ticker ≠ t) →
            ((MergeAssetList 0 [tickerOnly "A", tickerOnly "B"]
                [tickerOnly "B", tickerOnly "C"]).1.countP (fun r => r.Ticker == t)) = 1)
        ∧ (MergeAssetList 0 [tickerOnly "A", tickerOnly "B"]
              [tickerOnly "B", tickerOnly "C"]).1.length
            = [tickerOnly "B", tickerOnly "C"].length
              + ([tickerOnly "A", tickerOnly "B"].filter
                  (fun a => !([tickerOnly "B", tickerOnly "C"].any
                    (fun y => y.Ticker == a.Ticker)))).length) :=
  ⟨⟨by decide, by decide⟩,
    merge_asset_list_coverage 0 [tickerOnly "A", tickerOnly "B"]
      [tickerOnly "B", tickerOnly "C"] (by decide) (by decide)⟩

/-- Membership in the seen-tracking key walk: a key is kept exactly when it
occurs in the remainder and was not already seen. -/
theorem mem_dedupKeysAux (l : List String) (seen : List String) (t : String) :
    t ∈ dedupKeysAux seen l ↔ (t ∈ l ∧ t ∉ seen) := by
  induction l generalizing seen with
  | nil => simp [dedupKeysAux]
  | cons k rest ih =>
    unfold dedupKeysAux
    split
    · rename_i hk
      rw [ih]
      constructor
      · rintro ⟨h1, h2⟩
        exact ⟨List.mem_cons.mpr (Or.inr h1), h2⟩
      · rintro ⟨h1, h2⟩
        rcases List.mem_cons.mp h1 with rfl | h1
        · exact absurd hk h2
        · exact ⟨h1, h2⟩
    · rename_i hk
      rw [List.mem_cons, ih]
      constructor
      · rintro (rfl | ⟨h1, h2⟩)
        · exact ⟨List.mem_cons.mpr (Or.inl rfl), hk⟩
        · exact ⟨List.mem_cons.mpr (Or.inr h1),
            fun hts => h2 (List.mem_cons.mpr (Or.inr hts))⟩
      · rintro ⟨h1, h2⟩
        by_cases htk : t = k
        · exact Or.inl htk
        · rcases List.mem_cons.mp h1 with rfl | h1
          · exact Or.inl rfl
          · refine Or.inr ⟨h1, ?_⟩
            intro hmem
            rcases List.mem_cons.mp hmem with rfl | hts
            · exact htk rfl
            · exact h2 hts

/-- A list containing `a`, on which the predicate counts exactly one record,
filters to the singleton `[a]` when `a` satisfies the predicate. -/
theorem filter_eq_singleton_of_countP_one (l : List Asset) (p : Asset → Bool)
    (a : Asset) (ha : a ∈ l) (hpa : p a = true) (h1 : l.countP p = 1) :
    l.filter p = [a] := by
  induction l with
  | nil => cases ha
  | cons b l ih =>
    rcases List.mem_cons.mp ha with rfl | hal
    · rw [List.countP_cons] at h1
      simp only [hpa, if_true] at h1
      have hz : l.countP p = 0 := by omega
      rw [List.filter_cons, if_pos hpa]
      have : l.filter p = [] := by
        rw [List.filter_eq_nil_iff]
        intro x hx hpx
        rw [List.countP_eq_zero] at hz
        exact hz x hx hpx
      rw [this]
    · rcases hpb : p b with _ | _
      · rw [List.filter_cons, hpb]
        rw [List.countP_cons, hpb] at h1
        simp only [Bool.false_eq_true, if_false] at h1 ⊢
        exact ih hal (by omega)
      · rw [List.countP_cons, hpb] at h1
        simp only [if_true] at h1
        have hz : l.countP p = 0 := by omega
        rw [List.countP_eq_zero] at hz
        exact absurd hpa (hz a hal)

/-- Claim C5 as stated is false: records whose composite identifier is the
empty string are grouped together under the empty key like any other shared
identifier, and only one of two such records survives deduplication. -/
theorem empty_figi_grouped_counterexample :
    emptyFigi1.CompositeFigi = "" ∧ emptyFigi2.CompositeFigi = ""
      ∧ DeduplicateCompositeFigi [emptyFigi1, emptyFigi2] = [emptyFigi1]
      ∧ emptyFigi2 ∉ DeduplicateCompositeFigi [emptyFigi1, emptyFigi2] := by decide

/-- Claim C5 amended: every record whose composite identifier — the empty
string included — is shared with no other input record appears unchanged in
the deduplicated output; empty identifiers receive no special treatment, so
two records with empty identifiers collapse to one survivor. -/
theorem dedup_unique_figi_pass_through (l : List Asset) (a : Asset)
    (ha : a ∈ l) (huniq : l.countP (fun r => r.CompositeFigi == a.CompositeFigi) = 1) :
    a ∈ DeduplicateCompositeFigi l := by
  have hgroup : groupOf l a.CompositeFigi = [a] :=
    filter_eq_singleton_of_countP_one l _ a ha (by simp) huniq
  have hkey : a.CompositeFigi ∈ dedupKeys (l.map (fun r => r.CompositeFigi)) := by
    unfold dedupKeys
    rw [mem_dedupKeysAux]
    exact ⟨List.mem_map.mpr ⟨a, ha, rfl⟩, List.not_mem_nil _⟩
  unfold DeduplicateCompositeFigi
  dsimp only
  apply List.mem_append_left
  apply List.mem_filterMap.mpr
  refine ⟨a.CompositeFigi, ?_, ?_⟩
  · apply List.mem_filter.mpr
    refine ⟨hkey, ?_⟩
    rw [hgroup]
    rfl
  · rw [hgroup]
    rfl

/-- Witness for the amended claim C5 at a concrete input: two records with
distinct composite identifiers both pass through. -/
theorem dedup_unique_figi_pass_through_witness :
    (uniqFigi1 ∈ [uniqFigi1, uniqFigi2]
        ∧ ([uniqFigi1, uniqFigi2].countP
            (fun r => r.CompositeFigi == uniqFigi1.CompositeFigi)) = 1)
      ∧ uniqFigi1 ∈ DeduplicateCompositeFigi [uniqFigi1, uniqFigi2] :=
  ⟨⟨by decide, by decide⟩,
    dedup_unique_figi_pass_through [uniqFigi1, uniqFigi2] uniqFigi1 (by decide) (by decide)⟩

/-- Claim C6: for the three records sharing composite identifier BBG000 — a
mutual fund listed 2020-01-01, a common stock listed 2019-01-01 and a
closed-end fund listed 2021-01-01 — deduplication keeps the common stock as
the sole survivor for every input ordering. -/
theorem dedup_bbg000_survivor :
    DeduplicateCompositeFigi [figiA, figiB, figiC] = [figiB]
      ∧ DeduplicateCompositeFigi [figiA, figiC, figiB] = [figiB]
      ∧ DeduplicateCompositeFigi [figiB, figiA, figiC] = [figiB]
      ∧ DeduplicateCompositeFigi [figiB, figiC, figiA] = [figiB]
      ∧ DeduplicateCompositeFigi [figiC, figiA, figiB] = [figiB]
      ∧ DeduplicateCompositeFigi [figiC, figiB, figiA] = [figiB] := by decide
